import Mathlib

/-!
Shallow embedding of the background coordinator of the Browzie extension
(file background.js): the per-tab registry of in-flight AbortControllers
(activeFetchControllers with addControllerForTab, removeControllerForTab,
cleanupTab), the lifecycle notifier (notifyTab), and the two message
handlers (summarize_page and query_gemini) together with the
abort_requests handler.

AbortControllers are identified by natural numbers.  The JS Map keyed by
tabId-or-the-string-no-tab is modelled by an association list over an
OriginKey sum type; the JS Set of controllers is modelled by a duplicate
free list.  The network is external: a fetch settlement is a parameter of
the handler functions (resolved response with status, text() and json()
settlements, or a rejection carrying a JS error with name and message).
-/

namespace Browzie

/-- Key of the activeFetchControllers map: a concrete tabId (a number in
JS) or the string key used when tabId is undefined. -/
inductive OriginKey where
  | tab (id : Nat)
  | noTab
deriving DecidableEq, Repr

/-- Models the JS expression
(typeof tabId !== undefined) ? tabId : no-tab, where an absent tabId is
an Option none. -/
def keyOfTabId : Option Nat → OriginKey
  | some t => OriginKey.tab t
  | none => OriginKey.noTab

/-- The activeFetchControllers Map: association list from OriginKey to
the set (duplicate free list) of controller ids. -/
abbrev Registry := List (OriginKey × List Nat)

def regEmpty : Registry := []

/-- Map.get. -/
def mapGet (m : Registry) (k : OriginKey) : Option (List Nat) :=
  (m.find? (fun p => p.1 == k)).map (fun p => p.2)

/-- Map.set: replace the value under an existing key, else append a new
entry. -/
def mapSet (m : Registry) (k : OriginKey) (v : List Nat) : Registry :=
  if (m.find? (fun p => p.1 == k)).isSome then
    m.map (fun p => if p.1 == k then (k, v) else p)
  else
    m ++ [(k, v)]

/-- Map.delete. -/
def mapDelete (m : Registry) (k : OriginKey) : Registry :=
  m.filter (fun p => p.1 != k)

/-- Set.add. -/
def setAdd (s : List Nat) (c : Nat) : List Nat :=
  if c ∈ s then s else s ++ [c]

/-- Set.delete. -/
def setDelete (s : List Nat) (c : Nat) : List Nat :=
  s.filter (fun x => x != c)

/-- addControllerForTab from background.js: get the set for the key,
creating it when absent, and add the controller. -/
def addControllerForTab (m : Registry) (tabId : Option Nat) (c : Nat) : Registry :=
  match mapGet m (keyOfTabId tabId) with
  | none => mapSet m (keyOfTabId tabId) (setAdd [] c)
  | some s => mapSet m (keyOfTabId tabId) (setAdd s c)

/-- removeControllerForTab from background.js: if no set exists return;
delete the controller from the set; if the set became empty delete the
map entry. -/
def removeControllerForTab (m : Registry) (tabId : Option Nat) (c : Nat) : Registry :=
  match mapGet m (keyOfTabId tabId) with
  | none => m
  | some s =>
    if (setDelete s c).length = 0 then mapDelete m (keyOfTabId tabId)
    else mapSet m (keyOfTabId tabId) (setDelete s c)

/-- A JS Error value: its name and its message. -/
structure JsErr where
  name : String
  message : String
deriving DecidableEq, Repr

/-- Settlement of a JS call that either returns a value or throws. -/
inductive JsResult (α : Type) where
  | ok (val : α)
  | err (e : JsErr)
deriving DecidableEq, Repr

/-- controller.abort() invocation; the environment abortThrows says
whether this particular invocation throws (an already settled token). -/
def abortOne (abortThrows : Nat → Bool) (c : Nat) : JsResult Unit :=
  if abortThrows c then JsResult.err ⟨"InvalidStateError", "abort failed"⟩ else JsResult.ok ()

/-- The loop in cleanupTab: for each controller, try to abort it and
ignore any exception (try catch with an empty handler), continuing with
the rest of the set.  Returns the controllers on which abort was
invoked. -/
def abortAllCaught (abortThrows : Nat → Bool) : List Nat → List Nat
  | [] => []
  | c :: rest =>
    match abortOne abortThrows c with
    | JsResult.ok _ => c :: abortAllCaught abortThrows rest
    | JsResult.err _ => c :: abortAllCaught abortThrows rest

/-- Observable effects of one cleanupTab call.  retVal is the value the
JS function returns (it has no return value expression, so it is always
undefined, modelled none); logged is the count written by the
console.log at the end of the function (none when the early return was
taken). -/
structure CleanupResult where
  reg : Registry
  aborted : List Nat
  logged : Option Nat
  retVal : Option Nat
deriving DecidableEq, Repr

/-- cleanupTab from background.js: if no set exists, return (undefined);
otherwise abort every controller in the set (exceptions swallowed),
delete the map entry, and log the count.  The function never returns the
count: both paths return undefined. -/
def cleanupTab (abortThrows : Nat → Bool) (m : Registry) (tabId : Option Nat) : CleanupResult :=
  match mapGet m (keyOfTabId tabId) with
  | none => { reg := m, aborted := [], logged := none, retVal := none }
  | some s =>
    { reg := mapDelete m (keyOfTabId tabId)
      aborted := abortAllCaught abortThrows s
      logged := some s.length
      retVal := none }

/-- Reply sent by the abort_requests branch of the onMessage listener. -/
structure AbortReply where
  ok : Bool
  message : String
deriving DecidableEq, Repr

/-- The abort_requests branch: cleanupTab for the sender tab (or for the
non-tab key) and a synchronous sendResponse whose message names the tab
but carries no count. -/
def handleAbortRequests (abortThrows : Nat → Bool) (m : Registry) (senderTabId : Option Nat) :
    Registry × AbortReply :=
  match senderTabId with
  | some t =>
    ((cleanupTab abortThrows m (some t)).reg,
      { ok := true, message := "aborted for tab " ++ toString t })
  | none =>
    ((cleanupTab abortThrows m none).reg,
      { ok := true, message := "aborted non-tab controllers" })

/-- The ok and text fields of the JSON body returned by the proxy, the
only fields the background script inspects.  okField is the truthiness
of data.ok (none when the field is absent); textField is data.text. -/
structure ProxyData where
  okField : Option Bool
  textField : Option String
deriving DecidableEq, Repr

/-- A resolved fetch Response: its status, and the settlements of
res.text() and res.json(). -/
structure FetchResponse where
  status : Nat
  textResult : JsResult String
  jsonResult : JsResult ProxyData
deriving DecidableEq, Repr

/-- res.ok: status in the range 200 to 299. -/
def resOk (r : FetchResponse) : Bool :=
  200 ≤ r.status && r.status ≤ 299

/-- Settlement of the awaited fetch: resolved with a Response, or
rejected with a JS error (an AbortError when the controller fired, or a
network failure). -/
inductive FetchOutcome where
  | success (res : FetchResponse)
  | failure (e : JsErr)
deriving DecidableEq, Repr

/-- String(err) for an Error object: name, or name colon message. -/
def jsStringOfErr (e : JsErr) : String :=
  if e.message = "" then e.name else e.name ++ ": " ++ e.message

/-- The JS expression (err and err.message) or String(err): the message
when it is a non-empty string, else the stringified error. -/
def errMessageOr (e : JsErr) : String :=
  if e.message = "" then jsStringOfErr e else e.message

/-- A lifecycle message sent to the content script via
chrome.tabs.sendMessage: generation_started or generation_finished with
the fields the two handlers attach. -/
structure NotifyMsg where
  action : String
  kind : String
  ok : Option Bool
  text : Option String
  error : Option String
  dataField : Option ProxyData
deriving DecidableEq, Repr

/-- Behaviour of chrome.tabs.sendMessage towards one tab: the message is
delivered, or the callback observes chrome.runtime.lastError (surface
gone, content script not injected), or the call itself throws. -/
inductive SendOutcome where
  | delivered
  | lastErr (msg : String)
  | thrown (msg : String)
deriving DecidableEq, Repr

/-- The chrome.tabs.sendMessage call inside notifyTab: a delivery, an
ignored lastError in the callback, or a thrown exception. -/
def sendMessageAttempt (env : Nat → SendOutcome) (t : Nat) (m : NotifyMsg) :
    JsResult (List (Nat × NotifyMsg)) :=
  match env t with
  | SendOutcome.delivered => JsResult.ok [(t, m)]
  | SendOutcome.lastErr _ => JsResult.ok []
  | SendOutcome.thrown s => JsResult.err ⟨"Error", s⟩

/-- notifyTab from background.js: return immediately when tabId is
undefined; otherwise attempt sendMessage inside a try whose catch
swallows the exception.  Returns the list of deliveries that reached a
tab. -/
def notifyTab (env : Nat → SendOutcome) (tabId : Option Nat) (m : NotifyMsg) :
    List (Nat × NotifyMsg) :=
  match tabId with
  | none => []
  | some t =>
    match sendMessageAttempt env t m with
    | JsResult.ok d => d
    | JsResult.err _ => []

/-- The generation_started message of a handler. -/
def startedMsg (kind : String) : NotifyMsg :=
  { action := "generation_started", kind := kind, ok := none, text := none,
    error := none, dataField := none }

/-- The generation_finished message of an error or abort path. -/
def finishedErrMsg (kind errStr : String) : NotifyMsg :=
  { action := "generation_finished", kind := kind, ok := some false, text := none,
    error := some errStr, dataField := none }

/-- The generation_finished message of the summarize_page success path:
ok true, text data.text, data attached. -/
def finishedOkSummaryMsg (data : ProxyData) : NotifyMsg :=
  { action := "generation_finished", kind := "summary", ok := some true,
    text := data.textField, error := none, dataField := some data }

/-- The generation_finished message of the query_gemini success path:
ok true, data attached, no text field. -/
def finishedOkQueryMsg (data : ProxyData) : NotifyMsg :=
  { action := "generation_finished", kind := "query", ok := some true,
    text := none, error := none, dataField := some data }

/-- Best-effort body read of the summarize_page non-ok branch: the
try around await res.text() substitutes a fixed placeholder when the
read throws. -/
def summarizeBodyText : JsResult String → String
  | JsResult.ok t => t
  | JsResult.err _ => "<unable to read>"

/-- Best-effort body read of the query_gemini non-ok branch: the catch
interpolates the read failure message into the placeholder. -/
def queryBodyText : JsResult String → String
  | JsResult.ok t => t
  | JsResult.err e => "<failed to read body: " ++ e.message ++ ">"

/-- The object passed to sendResponse by the two handlers. -/
structure RespMsg where
  ok : Bool
  text : Option String
  error : Option String
  data : Option ProxyData
deriving DecidableEq, Repr

/-- Ordered observable events of one handler invocation. -/
inductive Ev where
  | register
  | notifyStarted
  | fetchCall
  | unregister
  | notifyFinished
  | reply
deriving DecidableEq, Repr

/-- The catch branch error string of summarize_page: the isAbort check
matches err.name against AbortError and picks a fixed aborted message;
otherwise err.message (or the stringified error). -/
def summarizeCatchErr (e : JsErr) : String :=
  if e.name = "AbortError" then "Request aborted" else errMessageOr e

/-- The catch branch error string of query_gemini. -/
def queryCatchErr (e : JsErr) : String :=
  if e.name = "AbortError" then "Request aborted (tab closed or navigation occurred)."
  else errMessageOr e

/-- Result of running a handler: the final registry, the sendResponse
payload, the event trace, and the lifecycle messages actually delivered
to a tab. -/
structure HandlerResult where
  reg : Registry
  resp : RespMsg
  trace : List Ev
  delivered : List (Nat × NotifyMsg)
deriving DecidableEq, Repr

/-- The summarize_page branch of the onMessage listener: register a
fresh controller, notify generation_started, fetch the summarize
endpoint (its settlement is the fetch argument), then remove the
controller and classify: non-2xx reads the body best-effort (placeholder
when text() throws) and replies with a Server error string; a parseable
2xx body replies ok equal to the truthiness of data.ok with data.text; a
json() failure falls into the catch, which removes the controller again
and classifies AbortError by the error name. -/
def handleSummarizePage (env : Nat → SendOutcome) (m0 : Registry)
    (tabId : Option Nat) (c : Nat) (fetch : FetchOutcome) : HandlerResult :=
  let m1 := addControllerForTab m0 tabId c
  let d1 := notifyTab env tabId (startedMsg "summary")
  match fetch with
  | FetchOutcome.success res =>
    let m2 := removeControllerForTab m1 tabId c
    if resOk res = false then
      let errStr := "Server error " ++ toString res.status ++ ": "
        ++ summarizeBodyText res.textResult
      let d2 := notifyTab env tabId (finishedErrMsg "summary" errStr)
      { reg := m2
        resp := { ok := false, text := none, error := some errStr, data := none }
        trace := [Ev.register, Ev.notifyStarted, Ev.fetchCall, Ev.unregister,
                  Ev.notifyFinished, Ev.reply]
        delivered := d1 ++ d2 }
    else
      match res.jsonResult with
      | JsResult.ok data =>
        let d2 := notifyTab env tabId (finishedOkSummaryMsg data)
        { reg := m2
          resp := { ok := data.okField.getD false, text := data.textField,
                    error := none, data := some data }
          trace := [Ev.register, Ev.notifyStarted, Ev.fetchCall, Ev.unregister,
                    Ev.notifyFinished, Ev.reply]
          delivered := d1 ++ d2 }
      | JsResult.err e =>
        let m3 := removeControllerForTab m2 tabId c
        let errStr := summarizeCatchErr e
        let d2 := notifyTab env tabId (finishedErrMsg "summary" errStr)
        { reg := m3
          resp := { ok := false, text := none, error := some errStr, data := none }
          trace := [Ev.register, Ev.notifyStarted, Ev.fetchCall, Ev.unregister,
                    Ev.unregister, Ev.notifyFinished, Ev.reply]
          delivered := d1 ++ d2 }
  | FetchOutcome.failure e =>
    let m2 := removeControllerForTab m1 tabId c
    let errStr := summarizeCatchErr e
    let d2 := notifyTab env tabId (finishedErrMsg "summary" errStr)
    { reg := m2
      resp := { ok := false, text := none, error := some errStr, data := none }
      trace := [Ev.register, Ev.notifyStarted, Ev.fetchCall, Ev.unregister,
                Ev.notifyFinished, Ev.reply]
      delivered := d1 ++ d2 }

/-- The query_gemini branch of the onMessage listener: same structure as
summarize_page with the generate endpoint; differences: the non-2xx
placeholder interpolates the read failure message, the success reply is
ok true with the whole data (the body ok field is not consulted), and
the abort message names tab closure. -/
def handleQueryGemini (env : Nat → SendOutcome) (m0 : Registry)
    (tabId : Option Nat) (c : Nat) (fetch : FetchOutcome) : HandlerResult :=
  let m1 := addControllerForTab m0 tabId c
  let d1 := notifyTab env tabId (startedMsg "query")
  match fetch with
  | FetchOutcome.success res =>
    let m2 := removeControllerForTab m1 tabId c
    if resOk res = false then
      let errStr := "Server error " ++ toString res.status ++ ": "
        ++ queryBodyText res.textResult
      let d2 := notifyTab env tabId (finishedErrMsg "query" errStr)
      { reg := m2
        resp := { ok := false, text := none, error := some errStr, data := none }
        trace := [Ev.register, Ev.notifyStarted, Ev.fetchCall, Ev.unregister,
                  Ev.notifyFinished, Ev.reply]
        delivered := d1 ++ d2 }
    else
      match res.jsonResult with
      | JsResult.ok data =>
        let d2 := notifyTab env tabId (finishedOkQueryMsg data)
        { reg := m2
          resp := { ok := true, text := none, error := none, data := some data }
          trace := [Ev.register, Ev.notifyStarted, Ev.fetchCall, Ev.unregister,
                    Ev.notifyFinished, Ev.reply]
          delivered := d1 ++ d2 }
      | JsResult.err e =>
        let m3 := removeControllerForTab m2 tabId c
        let errStr := queryCatchErr e
        let d2 := notifyTab env tabId (finishedErrMsg "query" errStr)
        { reg := m3
          resp := { ok := false, text := none, error := some errStr, data := none }
          trace := [Ev.register, Ev.notifyStarted, Ev.fetchCall, Ev.unregister,
                    Ev.unregister, Ev.notifyFinished, Ev.reply]
          delivered := d1 ++ d2 }
  | FetchOutcome.failure e =>
    let m2 := removeControllerForTab m1 tabId c
    let errStr := queryCatchErr e
    let d2 := notifyTab env tabId (finishedErrMsg "query" errStr)
    { reg := m2
      resp := { ok := false, text := none, error := some errStr, data := none }
      trace := [Ev.register, Ev.notifyStarted, Ev.fetchCall, Ev.unregister,
                Ev.notifyFinished, Ev.reply]
      delivered := d1 ++ d2 }

/-- One registry operation, for stating the invariant over arbitrary
operation sequences. -/
inductive RegOp where
  | reg (tabId : Option Nat) (c : Nat)
  | unreg (tabId : Option Nat) (c : Nat)
  | cleanup (tabId : Option Nat)
deriving DecidableEq, Repr

def applyOp (m : Registry) : RegOp → Registry
  | RegOp.reg t c => addControllerForTab m t c
  | RegOp.unreg t c => removeControllerForTab m t c
  | RegOp.cleanup t => (cleanupTab (fun _ => false) m t).reg

def applyOps (m : Registry) (ops : List RegOp) : Registry :=
  ops.foldl applyOp m

/-- The registry invariant: every entry of the map holds a non-empty
set. -/
def RegInv (m : Registry) : Prop :=
  ∀ p ∈ m, p.2 ≠ []

/-- How many removeControllerForTab call sites run for a given fetch
settlement: one on every path, plus a second inside the catch when a
2xx response body fails to parse as JSON. -/
def expectedUnregisterCalls : FetchOutcome → Nat
  | FetchOutcome.success res =>
    if resOk res = false then 1
    else
      match res.jsonResult with
      | JsResult.ok _ => 1
      | JsResult.err _ => 2
  | FetchOutcome.failure _ => 1

/-- The proxy body of the happy-path scenario. -/
def helloData : ProxyData := { okField := some true, textField := some "hello" }

/-- HTTP 200 whose JSON body parses to helloData. -/
def helloRes : FetchResponse :=
  { status := 200, textResult := JsResult.ok "", jsonResult := JsResult.ok helloData }

/-- HTTP 200 whose body fails JSON parsing: res.json() rejects with a
SyntaxError. -/
def badJsonRes : FetchResponse :=
  { status := 200, textResult := JsResult.ok "not json",
    jsonResult := JsResult.err ⟨"SyntaxError", "Unexpected token"⟩ }

/-- HTTP 500 whose body reads as oops. -/
def oopsRes : FetchResponse :=
  { status := 500, textResult := JsResult.ok "oops",
    jsonResult := JsResult.err ⟨"SyntaxError", "Unexpected token"⟩ }

/-- HTTP 200 whose JSON body carries ok false. -/
def okFalseRes : FetchResponse :=
  { status := 200, textResult := JsResult.ok "",
    jsonResult := JsResult.ok { okField := some false, textField := none } }

theorem setAdd_ne_nil (s : List Nat) (c : Nat) : setAdd s c ≠ [] := by
  unfold setAdd
  split
  · exact List.ne_nil_of_mem (by assumption)
  · simp

theorem notMem_setDelete (s : List Nat) (c : Nat) : c ∉ setDelete s c := by
  intro h
  have := (List.mem_filter.mp h).2
  simp at this

theorem setDelete_eq_self {s : List Nat} {c : Nat} (h : c ∉ s) : setDelete s c = s := by
  unfold setDelete
  rw [List.filter_eq_self]
  intro a ha
  simp only [bne_iff_ne, ne_eq]
  exact fun hac => h (hac ▸ ha)

theorem mem_mapSet {p : OriginKey × List Nat} {m : Registry} {k : OriginKey} {v : List Nat}
    (h : p ∈ mapSet m k v) : p = (k, v) ∨ p ∈ m := by
  unfold mapSet at h
  split at h
  · rcases List.mem_map.mp h with ⟨q, hq, rfl⟩
    cases hqk : (q.1 == k) with
    | true => simp [hqk]
    | false => simp [hqk, hq]
  · rcases List.mem_append.mp h with h1 | h1
    · exact Or.inr h1
    · exact Or.inl (by simpa using h1)

theorem mem_mapDelete {p : OriginKey × List Nat} {m : Registry} {k : OriginKey}
    (h : p ∈ mapDelete m k) : p ∈ m :=
  (List.mem_filter.mp h).1

theorem mapGet_mapDelete_self (m : Registry) (k : OriginKey) :
    mapGet (mapDelete m k) k = none := by
  simp only [mapGet, Option.map_eq_none', List.find?_eq_none]
  intro x hx
  have hne := (List.mem_filter.mp hx).2
  simp only [bne_iff_ne, ne_eq] at hne
  simp [hne]

theorem mapDelete_eq_self {m : Registry} {k : OriginKey} (h : mapGet m k = none) :
    mapDelete m k = m := by
  simp only [mapGet, Option.map_eq_none', List.find?_eq_none] at h
  unfold mapDelete
  rw [List.filter_eq_self]
  intro p hp
  have := h p hp
  simpa [bne_iff_ne] using this

theorem mapGet_some_ne_nil {m : Registry} {k : OriginKey} {s : List Nat}
    (hinv : RegInv m) (hg : mapGet m k = some s) : s ≠ [] := by
  simp only [mapGet, Option.map_eq_some'] at hg
  rcases hg with ⟨p, hfind, hsnd⟩
  exact hsnd ▸ hinv p (List.mem_of_find?_eq_some hfind)

theorem find?_map_rewrite {m : Registry} {k : OriginKey} (v : List Nat)
    (h : ∃ p ∈ m, p.1 = k) :
    List.find? (fun p => p.1 == k) (m.map (fun p => if p.1 == k then (k, v) else p))
      = some (k, v) := by
  induction m with
  | nil => simp at h
  | cons q rest ih =>
    cases hqk : (q.1 == k) with
    | true =>
      simp [List.find?, hqk]
    | false =>
      simp only [List.map_cons, hqk, Bool.false_eq_true, if_false]
      rw [List.find?_cons_of_neg _ (by simp [hqk])]
      apply ih
      rcases h with ⟨p, hp, hpk⟩
      rcases List.mem_cons.mp hp with rfl | hp2
      · exact absurd hpk (by simpa using hqk)
      · exact ⟨p, hp2, hpk⟩

theorem mapGet_mapSet_self {m : Registry} {k : OriginKey} (v : List Nat)
    (h : (mapGet m k).isSome = true) : mapGet (mapSet m k v) k = some v := by
  have hf : (m.find? (fun p => p.1 == k)).isSome = true := by
    simpa [mapGet] using h
  rcases Option.isSome_iff_exists.mp hf with ⟨p, hp⟩
  have hmem := List.mem_of_find?_eq_some hp
  have hpk : p.1 = k := by simpa using List.find?_some hp
  unfold mapSet
  rw [if_pos hf]
  unfold mapGet
  rw [find?_map_rewrite v ⟨p, hmem, hpk⟩]
  rfl

theorem mapSet_self {m : Registry} {k : OriginKey} {s : List Nat}
    (hg : mapGet m k = some s) (hnd : (m.map (fun p => p.1)).Nodup) :
    mapSet m k s = m := by
  simp only [mapGet, Option.map_eq_some'] at hg
  rcases hg with ⟨p, hfind, hsnd⟩
  have hpm := List.mem_of_find?_eq_some hfind
  have hpk : p.1 = k := by simpa using List.find?_some hfind
  unfold mapSet
  rw [if_pos (by simp [hfind])]
  have hid : ∀ q ∈ m, (if q.1 == k then (k, s) else q) = q := by
    intro q hq
    cases hqk : (q.1 == k) with
    | false => simp [hqk]
    | true =>
      have hqk2 : q.1 = k := by simpa using hqk
      have hqp : q = p := List.inj_on_of_nodup_map hnd hq hpm (by rw [hqk2, hpk])
      subst hqp
      simp only [hqk, if_true]
      rw [Prod.ext_iff]
      exact ⟨hpk.symm, hsnd.symm⟩
  calc m.map (fun q => if q.1 == k then (k, s) else q) = m.map id :=
        List.map_congr_left hid
    _ = m := List.map_id m

theorem abortAllCaught_eq (f : Nat → Bool) (s : List Nat) : abortAllCaught f s = s := by
  induction s with
  | nil => rfl
  | cons c rest ih => cases h : abortOne f c <;> simp [abortAllCaught, h, ih]

theorem RegInv_regEmpty : RegInv regEmpty := by
  intro p hp
  simp [regEmpty] at hp

theorem RegInv_addControllerForTab {m : Registry} (h : RegInv m)
    (tabId : Option Nat) (c : Nat) : RegInv (addControllerForTab m tabId c) := by
  intro p hp
  unfold addControllerForTab at hp
  split at hp
  · rcases mem_mapSet hp with heq | hp2
    · cases heq
      simpa using setAdd_ne_nil [] c
    · exact h p hp2
  · rcases mem_mapSet hp with heq | hp2
    · cases heq
      simpa using setAdd_ne_nil _ c
    · exact h p hp2

theorem RegInv_removeControllerForTab {m : Registry} (h : RegInv m)
    (tabId : Option Nat) (c : Nat) : RegInv (removeControllerForTab m tabId c) := by
  intro p hp
  unfold removeControllerForTab at hp
  split at hp
  · exact h p hp
  · split at hp
    · exact h p (mem_mapDelete hp)
    · rename_i s hg hlen
      rcases mem_mapSet hp with heq | hp2
      · cases heq
        intro hnil
        exact hlen (by simp [show setDelete s c = [] from by simpa using hnil])
      · exact h p hp2

theorem RegInv_cleanupTab {m : Registry} (h : RegInv m) (f : Nat → Bool)
    (tabId : Option Nat) : RegInv (cleanupTab f m tabId).reg := by
  unfold cleanupTab
  split
  · exact h
  · intro p hp
    exact h p (mem_mapDelete hp)

theorem RegInv_applyOp {m : Registry} (h : RegInv m) (op : RegOp) :
    RegInv (applyOp m op) := by
  cases op with
  | reg t c => exact RegInv_addControllerForTab h t c
  | unreg t c => exact RegInv_removeControllerForTab h t c
  | cleanup t => exact RegInv_cleanupTab h _ t

theorem RegInv_applyOps {m : Registry} (h : RegInv m) (ops : List RegOp) :
    RegInv (applyOps m ops) := by
  induction ops generalizing m with
  | nil => exact h
  | cons op rest ih =>
    simp only [applyOps, List.foldl_cons]
    exact ih (RegInv_applyOp h op)

theorem notMem_after_remove (m : Registry) (tabId : Option Nat) (c : Nat) :
    c ∉ (mapGet (removeControllerForTab m tabId c) (keyOfTabId tabId)).getD [] := by
  unfold removeControllerForTab
  split
  · rename_i hg
    simp [hg]
  · rename_i s hg
    split
    · rw [mapGet_mapDelete_self]
      simp
    · rw [mapGet_mapSet_self (setDelete s c) (by simp [hg])]
      simpa using notMem_setDelete s c

theorem notifyTab_delivered {env : Nat → SendOutcome} {t : Nat}
    (h : env t = SendOutcome.delivered) (m : NotifyMsg) :
    notifyTab env (some t) m = [(t, m)] := by
  simp [notifyTab, sendMessageAttempt, h]

theorem handleSummarizePage_failure (env : Nat → SendOutcome) (m0 : Registry)
    (tabId : Option Nat) (c : Nat) (e : JsErr) :
    handleSummarizePage env m0 tabId c (FetchOutcome.failure e)
      = { reg := removeControllerForTab (addControllerForTab m0 tabId c) tabId c
          resp := { ok := false, text := none, error := some (summarizeCatchErr e),
                    data := none }
          trace := [Ev.register, Ev.notifyStarted, Ev.fetchCall, Ev.unregister,
                    Ev.notifyFinished, Ev.reply]
          delivered := notifyTab env tabId (startedMsg "summary")
            ++ notifyTab env tabId (finishedErrMsg "summary" (summarizeCatchErr e)) } :=
  rfl

theorem handleSummarizePage_non2xx (env : Nat → SendOutcome) (m0 : Registry)
    (tabId : Option Nat) (c : Nat) {res : FetchResponse} (hok : resOk res = false) :
    handleSummarizePage env m0 tabId c (FetchOutcome.success res)
      = { reg := removeControllerForTab (addControllerForTab m0 tabId c) tabId c
          resp := { ok := false, text := none,
                    error := some ("Server error " ++ toString res.status ++ ": "
                      ++ summarizeBodyText res.textResult),
                    data := none }
          trace := [Ev.register, Ev.notifyStarted, Ev.fetchCall, Ev.unregister,
                    Ev.notifyFinished, Ev.reply]
          delivered := notifyTab env tabId (startedMsg "summary")
            ++ notifyTab env tabId (finishedErrMsg "summary"
                ("Server error " ++ toString res.status ++ ": "
                  ++ summarizeBodyText res.textResult)) } := by
  simp [handleSummarizePage, hok]

theorem handleSummarizePage_okJson (env : Nat → SendOutcome) (m0 : Registry)
    (tabId : Option Nat) (c : Nat) {res : FetchResponse} {data : ProxyData}
    (hok : resOk res = true) (hj : res.jsonResult = JsResult.ok data) :
    handleSummarizePage env m0 tabId c (FetchOutcome.success res)
      = { reg := removeControllerForTab (addControllerForTab m0 tabId c) tabId c
          resp := { ok := data.okField.getD false, text := data.textField,
                    error := none, data := some data }
          trace := [Ev.register, Ev.notifyStarted, Ev.fetchCall, Ev.unregister,
                    Ev.notifyFinished, Ev.reply]
          delivered := notifyTab env tabId (startedMsg "summary")
            ++ notifyTab env tabId (finishedOkSummaryMsg data) } := by
  simp [handleSummarizePage, hok, hj]

theorem handleSummarizePage_badJson (env : Nat → SendOutcome) (m0 : Registry)
    (tabId : Option Nat) (c : Nat) {res : FetchResponse} {e : JsErr}
    (hok : resOk res = true) (hj : res.jsonResult = JsResult.err e) :
    handleSummarizePage env m0 tabId c (FetchOutcome.success res)
      = { reg := removeControllerForTab
                   (removeControllerForTab (addControllerForTab m0 tabId c) tabId c) tabId c
          resp := { ok := false, text := none, error := some (summarizeCatchErr e),
                    data := none }
          trace := [Ev.register, Ev.notifyStarted, Ev.fetchCall, Ev.unregister,
                    Ev.unregister, Ev.notifyFinished, Ev.reply]
          delivered := notifyTab env tabId (startedMsg "summary")
            ++ notifyTab env tabId (finishedErrMsg "summary" (summarizeCatchErr e)) } := by
  simp [handleSummarizePage, hok, hj]

theorem handleQueryGemini_failure (env : Nat → SendOutcome) (m0 : Registry)
    (tabId : Option Nat) (c : Nat) (e : JsErr) :
    handleQueryGemini env m0 tabId c (FetchOutcome.failure e)
      = { reg := removeControllerForTab (addControllerForTab m0 tabId c) tabId c
          resp := { ok := false, text := none, error := some (queryCatchErr e),
                    data := none }
          trace := [Ev.register, Ev.notifyStarted, Ev.fetchCall, Ev.unregister,
                    Ev.notifyFinished, Ev.reply]
          delivered := notifyTab env tabId (startedMsg "query")
            ++ notifyTab env tabId (finishedErrMsg "query" (queryCatchErr e)) } :=
  rfl

theorem handleQueryGemini_non2xx (env : Nat → SendOutcome) (m0 : Registry)
    (tabId : Option Nat) (c : Nat) {res : FetchResponse} (hok : resOk res = false) :
    handleQueryGemini env m0 tabId c (FetchOutcome.success res)
      = { reg := removeControllerForTab (addControllerForTab m0 tabId c) tabId c
          resp := { ok := false, text := none,
                    error := some ("Server error " ++ toString res.status ++ ": "
                      ++ queryBodyText res.textResult),
                    data := none }
          trace := [Ev.register, Ev.notifyStarted, Ev.fetchCall, Ev.unregister,
                    Ev.notifyFinished, Ev.reply]
          delivered := notifyTab env tabId (startedMsg "query")
            ++ notifyTab env tabId (finishedErrMsg "query"
                ("Server error " ++ toString res.status ++ ": "
                  ++ queryBodyText res.textResult)) } := by
  simp [handleQueryGemini, hok]

theorem handleQueryGemini_okJson (env : Nat → SendOutcome) (m0 : Registry)
    (tabId : Option Nat) (c : Nat) {res : FetchResponse} {data : ProxyData}
    (hok : resOk res = true) (hj : res.jsonResult = JsResult.ok data) :
    handleQueryGemini env m0 tabId c (FetchOutcome.success res)
      = { reg := removeControllerForTab (addControllerForTab m0 tabId c) tabId c
          resp := { ok := true, text := none, error := none, data := some data }
          trace := [Ev.register, Ev.notifyStarted, Ev.fetchCall, Ev.unregister,
                    Ev.notifyFinished, Ev.reply]
          delivered := notifyTab env tabId (startedMsg "query")
            ++ notifyTab env tabId (finishedOkQueryMsg data) } := by
  simp [handleQueryGemini, hok, hj]

theorem handleQueryGemini_badJson (env : Nat → SendOutcome) (m0 : Registry)
    (tabId : Option Nat) (c : Nat) {res : FetchResponse} {e : JsErr}
    (hok : resOk res = true) (hj : res.jsonResult = JsResult.err e) :
    handleQueryGemini env m0 tabId c (FetchOutcome.success res)
      = { reg := removeControllerForTab
                   (removeControllerForTab (addControllerForTab m0 tabId c) tabId c) tabId c
          resp := { ok := false, text := none, error := some (queryCatchErr e),
                    data := none }
          trace := [Ev.register, Ev.notifyStarted, Ev.fetchCall, Ev.unregister,
                    Ev.unregister, Ev.notifyFinished, Ev.reply]
          delivered := notifyTab env tabId (startedMsg "query")
            ++ notifyTab env tabId (finishedErrMsg "query" (queryCatchErr e)) } := by
  simp [handleQueryGemini, hok, hj]

/-- C1: after any sequence of addControllerForTab, removeControllerForTab
and cleanupTab operations starting from the empty map, an origin key is
present in the activeFetchControllers mapping if and only if its
associated set of handles is non-empty; an empty set is removed
immediately and never left dangling. -/
theorem registry_key_iff_nonempty (ops : List RegOp) (k : OriginKey) :
    (mapGet (applyOps regEmpty ops) k).isSome = true
      ↔ (mapGet (applyOps regEmpty ops) k).getD [] ≠ [] := by
  have hinv : RegInv (applyOps regEmpty ops) := RegInv_applyOps RegInv_regEmpty ops
  cases hg : mapGet (applyOps regEmpty ops) k with
  | none => simp
  | some s =>
    simp only [Option.isSome_some, Option.getD_some, ne_eq, true_iff]
    exact mapGet_some_ne_nil hinv hg

/-- C8: removeControllerForTab called when the handle is not registered
under the origin, including when the origin key itself is absent, leaves
the mapping unchanged (and, being total, raises nothing).  The two
registry hypotheses (entries non-empty, keys duplicate free) hold of
every reachable registry. -/
theorem removeControllerForTab_noop (m : Registry) (tabId : Option Nat) (c : Nat)
    (h1 : RegInv m) (h2 : (m.map (fun p => p.1)).Nodup)
    (h3 : c ∉ (mapGet m (keyOfTabId tabId)).getD []) :
    removeControllerForTab m tabId c = m := by
  unfold removeControllerForTab
  split
  · rfl
  · rename_i s hg
    have hcs : c ∉ s := by
      rw [hg] at h3
      simpa using h3
    rw [setDelete_eq_self hcs]
    have hs : s ≠ [] := mapGet_some_ne_nil h1 hg
    rw [if_neg (by simpa [List.length_eq_zero] using hs)]
    exact mapSet_self hg h2

/-- C8 witness: removing an unregistered handle from a concrete registry
changes nothing. -/
theorem removeControllerForTab_noop_witness :
    removeControllerForTab [(OriginKey.tab 1, [5])] (some 2) 5 = [(OriginKey.tab 1, [5])] :=
  removeControllerForTab_noop [(OriginKey.tab 1, [5])] (some 2) 5
    (by unfold RegInv; decide) (by decide) (by decide)

/-- C2 counterexample: with two handles registered under tab 7,
cleanupTab aborts both but returns undefined (none), not the count 2,
and the abort_requests reply carries only ok and a message naming the
tab, not the cancelled count. -/
theorem cleanupTab_returns_no_count :
    (cleanupTab (fun _ => true) [(OriginKey.tab 7, [1, 2])] (some 7)).retVal = none
    ∧ (cleanupTab (fun _ => true) [(OriginKey.tab 7, [1, 2])] (some 7)).aborted = [1, 2]
    ∧ (cleanupTab (fun _ => true) [(OriginKey.tab 7, [1, 2])] (some 7)).retVal ≠ some 2
    ∧ (handleAbortRequests (fun _ => true) [(OriginKey.tab 7, [1, 2])] (some 7)).2
        = { ok := true, message := "aborted for tab 7" } := by
  exact ⟨rfl, rfl, by decide, by decide⟩

/-- C2 (amended): cleanupTab invokes abort on every handle registered
under the origin (abort exceptions are swallowed: the result does not
depend on which aborts throw), then removes the origin entry entirely
and logs the count; it does not return the count: its JS return value is
undefined on every path, also when the origin has no entries, where it
performs no action.  The abort_requests action invokes cleanupTab and
replies synchronously with ok true and a message naming the tab, without
the cancelled count. -/
theorem cleanupTab_spec (f g : Nat → Bool) (m : Registry) (tabId : Option Nat) :
    (cleanupTab f m tabId).retVal = none
    ∧ (cleanupTab f m tabId).aborted = (mapGet m (keyOfTabId tabId)).getD []
    ∧ (cleanupTab f m tabId).logged = (mapGet m (keyOfTabId tabId)).map List.length
    ∧ mapGet (cleanupTab f m tabId).reg (keyOfTabId tabId) = none
    ∧ (cleanupTab f m tabId).reg = mapDelete m (keyOfTabId tabId)
    ∧ cleanupTab f m tabId = cleanupTab g m tabId
    ∧ (handleAbortRequests f m tabId).1 = (cleanupTab f m tabId).reg
    ∧ (handleAbortRequests f m tabId).2.ok = true := by
  refine ⟨?_, ?_, ?_, ?_, ?_, ?_, ?_, ?_⟩
  · unfold cleanupTab
    split <;> rfl
  · unfold cleanupTab
    split
    · rename_i hg
      simp [hg]
    · rename_i s hg
      simp [hg, abortAllCaught_eq]
  · unfold cleanupTab
    split
    · rename_i hg
      simp [hg]
    · rename_i s hg
      simp [hg]
  · unfold cleanupTab
    split
    · rename_i hg
      exact hg
    · exact mapGet_mapDelete_self m (keyOfTabId tabId)
  · unfold cleanupTab
    split
    · rename_i hg
      exact (mapDelete_eq_self hg).symm
    · rfl
  · unfold cleanupTab
    split
    · rfl
    · simp [abortAllCaught_eq]
  · cases tabId <;> rfl
  · cases tabId <;> rfl

theorem expected_failure (e : JsErr) :
    expectedUnregisterCalls (FetchOutcome.failure e) = 1 := rfl

theorem expected_non2xx {res : FetchResponse} (hok : resOk res = false) :
    expectedUnregisterCalls (FetchOutcome.success res) = 1 := by
  simp [expectedUnregisterCalls, hok]

theorem expected_okJson {res : FetchResponse} {data : ProxyData}
    (hok : resOk res = true) (hj : res.jsonResult = JsResult.ok data) :
    expectedUnregisterCalls (FetchOutcome.success res) = 1 := by
  simp [expectedUnregisterCalls, hok, hj]

theorem expected_badJson {res : FetchResponse} {e : JsErr}
    (hok : resOk res = true) (hj : res.jsonResult = JsResult.err e) :
    expectedUnregisterCalls (FetchOutcome.success res) = 2 := by
  simp [expectedUnregisterCalls, hok, hj]

theorem count_unregister_single :
    List.count Ev.unregister [Ev.register, Ev.notifyStarted, Ev.fetchCall, Ev.unregister,
      Ev.notifyFinished, Ev.reply] = 1 := by decide

theorem count_unregister_double :
    List.count Ev.unregister [Ev.register, Ev.notifyStarted, Ev.fetchCall, Ev.unregister,
      Ev.unregister, Ev.notifyFinished, Ev.reply] = 2 := by decide

theorem count_fetch_single :
    List.count Ev.fetchCall [Ev.register, Ev.notifyStarted, Ev.fetchCall, Ev.unregister,
      Ev.notifyFinished, Ev.reply] = 1 := by decide

/-- C3 counterexample: a summarize_page invocation whose 2xx response
body fails JSON parsing — a settlement surfaced as a transport error
carrying the parse failure message — calls removeControllerForTab
twice, not exactly once. -/
theorem unregister_called_twice_on_bad_json :
    (handleSummarizePage (fun _ => SendOutcome.delivered) regEmpty (some 7) 1
        (FetchOutcome.success badJsonRes)).trace.count Ev.unregister = 2
    ∧ (handleSummarizePage (fun _ => SendOutcome.delivered) regEmpty (some 7) 1
        (FetchOutcome.success badJsonRes)).resp.error = some "Unexpected token" := by
  decide

/-- C3 (amended): for every summarize_page or query_gemini invocation
and every settlement outcome, removeControllerForTab runs at least once
and the registry no longer contains the handle afterwards; it runs
exactly once on the success, non-2xx and fetch-rejection paths, and
twice — the second call redundant — when a 2xx response body fails JSON
parsing. -/
theorem unregister_always_and_handle_gone (env : Nat → SendOutcome) (m0 : Registry)
    (tabId : Option Nat) (c : Nat) (fetch : FetchOutcome) :
    (handleSummarizePage env m0 tabId c fetch).trace.count Ev.unregister
        = expectedUnregisterCalls fetch
    ∧ (handleQueryGemini env m0 tabId c fetch).trace.count Ev.unregister
        = expectedUnregisterCalls fetch
    ∧ 1 ≤ expectedUnregisterCalls fetch
    ∧ c ∉ (mapGet (handleSummarizePage env m0 tabId c fetch).reg
            (keyOfTabId tabId)).getD []
    ∧ c ∉ (mapGet (handleQueryGemini env m0 tabId c fetch).reg
            (keyOfTabId tabId)).getD [] := by
  cases fetch with
  | failure e =>
    rw [handleSummarizePage_failure, handleQueryGemini_failure, expected_failure]
    exact ⟨count_unregister_single, count_unregister_single, Nat.le_refl 1,
      notMem_after_remove _ _ _, notMem_after_remove _ _ _⟩
  | success res =>
    cases hok : resOk res with
    | false =>
      rw [handleSummarizePage_non2xx env m0 tabId c hok,
        handleQueryGemini_non2xx env m0 tabId c hok, expected_non2xx hok]
      exact ⟨count_unregister_single, count_unregister_single, Nat.le_refl 1,
        notMem_after_remove _ _ _, notMem_after_remove _ _ _⟩
    | true =>
      cases hj : res.jsonResult with
      | ok data =>
        rw [handleSummarizePage_okJson env m0 tabId c hok hj,
          handleQueryGemini_okJson env m0 tabId c hok hj, expected_okJson hok hj]
        exact ⟨count_unregister_single, count_unregister_single, Nat.le_refl 1,
          notMem_after_remove _ _ _, notMem_after_remove _ _ _⟩
      | err e =>
        rw [handleSummarizePage_badJson env m0 tabId c hok hj,
          handleQueryGemini_badJson env m0 tabId c hok hj, expected_badJson hok hj]
        exact ⟨count_unregister_double, count_unregister_double, by decide,
          notMem_after_remove _ _ _, notMem_after_remove _ _ _⟩

/-- C4: a run whose fetch rejects with the cancellation signal (an error
named AbortError) is surfaced as the fixed aborted error, not as a
transport error message; classification matches on the error name, not
on the message string: a rejection named AbortError maps to the aborted
text whatever its message says, and any other name maps to the transport
message. -/
theorem abort_classified_by_name (env : Nat → SendOutcome) (m0 : Registry)
    (tabId : Option Nat) (c : Nat) (name msg : String) :
    (handleSummarizePage env m0 tabId c (FetchOutcome.failure ⟨name, msg⟩)).resp
      = { ok := false, text := none,
          error := some (if name = "AbortError" then "Request aborted"
            else errMessageOr ⟨name, msg⟩),
          data := none }
    ∧ (handleQueryGemini env m0 tabId c (FetchOutcome.failure ⟨name, msg⟩)).resp
      = { ok := false, text := none,
          error := some (if name = "AbortError"
            then "Request aborted (tab closed or navigation occurred)."
            else errMessageOr ⟨name, msg⟩),
          data := none } := by
  rw [handleSummarizePage_failure, handleQueryGemini_failure]
  exact ⟨rfl, rfl⟩

/-- C5 counterexample: in the query_gemini run whose 2xx body fails JSON
parsing, the unregister event occurs twice in the trace, not exactly
once. -/
theorem query_trace_double_unregister :
    (handleQueryGemini (fun _ => SendOutcome.delivered) regEmpty (some 3) 2
        (FetchOutcome.success badJsonRes)).trace.count Ev.unregister = 2 := by
  decide

/-- C5 (amended): for every single run invocation the observable order
is: register, then the start notification, then the network call, then —
after settlement — the unregister call(s), then the finish notification,
then the reply; the start notification, finish notification and reply
each occur exactly once, every unregister precedes the finish
notification, and unregister occurs once, or twice exactly when a 2xx
response body fails JSON parsing. -/
theorem run_trace_shape (env : Nat → SendOutcome) (m0 : Registry)
    (tabId : Option Nat) (c : Nat) (fetch : FetchOutcome) :
    (handleSummarizePage env m0 tabId c fetch).trace
        = [Ev.register, Ev.notifyStarted, Ev.fetchCall]
          ++ List.replicate (expectedUnregisterCalls fetch) Ev.unregister
          ++ [Ev.notifyFinished, Ev.reply]
    ∧ (handleQueryGemini env m0 tabId c fetch).trace
        = [Ev.register, Ev.notifyStarted, Ev.fetchCall]
          ++ List.replicate (expectedUnregisterCalls fetch) Ev.unregister
          ++ [Ev.notifyFinished, Ev.reply] := by
  cases fetch with
  | failure e =>
    rw [handleSummarizePage_failure, handleQueryGemini_failure, expected_failure]
    exact ⟨rfl, rfl⟩
  | success res =>
    cases hok : resOk res with
    | false =>
      rw [handleSummarizePage_non2xx env m0 tabId c hok,
        handleQueryGemini_non2xx env m0 tabId c hok, expected_non2xx hok]
      exact ⟨rfl, rfl⟩
    | true =>
      cases hj : res.jsonResult with
      | ok data =>
        rw [handleSummarizePage_okJson env m0 tabId c hok hj,
          handleQueryGemini_okJson env m0 tabId c hok hj, expected_okJson hok hj]
        exact ⟨rfl, rfl⟩
      | err e =>
        rw [handleSummarizePage_badJson env m0 tabId c hok hj,
          handleQueryGemini_badJson env m0 tabId c hok hj, expected_badJson hok hj]
        exact ⟨rfl, rfl⟩

/-- C6: a run whose network call returns a non-2xx response performs
exactly one fetch (no retry) and is surfaced as the upstream Server
error carrying the status code and the raw body, with a placeholder
substituted when the body cannot be read, and the registry no longer
contains the handle afterwards. -/
theorem non2xx_upstream_error (env : Nat → SendOutcome) (m0 : Registry)
    (tabId : Option Nat) (c : Nat) (e : JsErr) (res : FetchResponse)
    (hok : resOk res = false) :
    (handleSummarizePage env m0 tabId c (FetchOutcome.success res)).resp
      = { ok := false, text := none,
          error := some ("Server error " ++ toString res.status ++ ": "
            ++ summarizeBodyText res.textResult), data := none }
    ∧ (handleQueryGemini env m0 tabId c (FetchOutcome.success res)).resp
      = { ok := false, text := none,
          error := some ("Server error " ++ toString res.status ++ ": "
            ++ queryBodyText res.textResult), data := none }
    ∧ (handleSummarizePage env m0 tabId c
        (FetchOutcome.success res)).trace.count Ev.fetchCall = 1
    ∧ (handleQueryGemini env m0 tabId c
        (FetchOutcome.success res)).trace.count Ev.fetchCall = 1
    ∧ summarizeBodyText (JsResult.ok "oops") = "oops"
    ∧ summarizeBodyText (JsResult.err e) = "<unable to read>"
    ∧ queryBodyText (JsResult.err e) = "<failed to read body: " ++ e.message ++ ">"
    ∧ c ∉ (mapGet (handleSummarizePage env m0 tabId c
            (FetchOutcome.success res)).reg (keyOfTabId tabId)).getD []
    ∧ c ∉ (mapGet (handleQueryGemini env m0 tabId c
            (FetchOutcome.success res)).reg (keyOfTabId tabId)).getD [] := by
  rw [handleSummarizePage_non2xx env m0 tabId c hok,
    handleQueryGemini_non2xx env m0 tabId c hok]
  exact ⟨rfl, rfl, count_fetch_single, count_fetch_single, rfl, rfl, rfl,
    notMem_after_remove _ _ _, notMem_after_remove _ _ _⟩

/-- C6 witness: HTTP 500 with body oops yields the Server error 500 oops
reply. -/
theorem non2xx_upstream_error_witness :
    (handleSummarizePage (fun _ => SendOutcome.delivered) regEmpty (some 7) 1
        (FetchOutcome.success oopsRes)).resp.error = some "Server error 500: oops"
    ∧ (handleQueryGemini (fun _ => SendOutcome.delivered) regEmpty (some 7) 1
        (FetchOutcome.success oopsRes)).resp.error = some "Server error 500: oops" := by
  have h := non2xx_upstream_error (fun _ => SendOutcome.delivered) regEmpty (some 7) 1
    ⟨"TypeError", "read failed"⟩ oopsRes (by decide)
  refine ⟨?_, ?_⟩
  · rw [h.1]
    decide
  · rw [h.2.1]
    decide

/-- C7: a run against a proxy returning HTTP 200 with a body carrying ok
true and text hello delivers the successful reply (summarize_page
replies ok true with text hello; query_gemini replies ok true with the
data carrying hello), and exactly two lifecycle notifications are
delivered to the origin tab, generation_started followed by
generation_finished. -/
theorem success_hello_two_notifications (env : Nat → SendOutcome) (m0 : Registry)
    (t : Nat) (c : Nat) (h : env t = SendOutcome.delivered) :
    (handleSummarizePage env m0 (some t) c (FetchOutcome.success helloRes)).resp
      = { ok := true, text := some "hello", error := none, data := some helloData }
    ∧ (handleSummarizePage env m0 (some t) c (FetchOutcome.success helloRes)).delivered
      = [(t, startedMsg "summary"), (t, finishedOkSummaryMsg helloData)]
    ∧ (handleQueryGemini env m0 (some t) c (FetchOutcome.success helloRes)).resp
      = { ok := true, text := none, error := none, data := some helloData }
    ∧ (handleQueryGemini env m0 (some t) c (FetchOutcome.success helloRes)).delivered
      = [(t, startedMsg "query"), (t, finishedOkQueryMsg helloData)]
    ∧ (startedMsg "summary").action = "generation_started"
    ∧ (finishedOkSummaryMsg helloData).action = "generation_finished" := by
  rw [handleSummarizePage_okJson env m0 (some t) c (by decide) rfl,
    handleQueryGemini_okJson env m0 (some t) c (by decide) rfl]
  refine ⟨rfl, ?_, rfl, ?_, rfl, rfl⟩
  · rw [notifyTab_delivered h, notifyTab_delivered h]
    rfl
  · rw [notifyTab_delivered h, notifyTab_delivered h]
    rfl

/-- C7 witness: the happy-path scenario at a concrete tab. -/
theorem success_hello_two_notifications_witness :
    (handleSummarizePage (fun _ => SendOutcome.delivered) regEmpty (some 7) 1
        (FetchOutcome.success helloRes)).resp.text = some "hello"
    ∧ (handleQueryGemini (fun _ => SendOutcome.delivered) regEmpty (some 7) 1
        (FetchOutcome.success helloRes)).delivered
      = [(7, startedMsg "query"), (7, finishedOkQueryMsg helloData)] := by
  have h := success_hello_two_notifications (fun _ => SendOutcome.delivered) regEmpty 7 1 rfl
  exact ⟨by rw [h.1], h.2.2.2.1⟩

/-- C9: notifyTab swallows delivery failures silently: with the sentinel
no-origin value it sends nothing; when sendMessage throws, or the
callback observes lastError because the surface is gone, nothing is
delivered and notifyTab returns normally; and the outcome delivered to
the original caller — the reply and the final registry — is identical
under every notification environment. -/
theorem notify_failures_swallowed (env env2 : Nat → SendOutcome) (m0 : Registry)
    (tabId : Option Nat) (c : Nat) (fetch : FetchOutcome) (t : Nat) (s : String)
    (msg : NotifyMsg) :
    notifyTab env none msg = []
    ∧ (env t = SendOutcome.thrown s → notifyTab env (some t) msg = [])
    ∧ (env t = SendOutcome.lastErr s → notifyTab env (some t) msg = [])
    ∧ (handleSummarizePage env m0 tabId c fetch).resp
        = (handleSummarizePage env2 m0 tabId c fetch).resp
    ∧ (handleSummarizePage env m0 tabId c fetch).reg
        = (handleSummarizePage env2 m0 tabId c fetch).reg
    ∧ (handleQueryGemini env m0 tabId c fetch).resp
        = (handleQueryGemini env2 m0 tabId c fetch).resp
    ∧ (handleQueryGemini env m0 tabId c fetch).reg
        = (handleQueryGemini env2 m0 tabId c fetch).reg := by
  refine ⟨rfl, ?_, ?_, ?_, ?_, ?_, ?_⟩
  · intro h
    simp [notifyTab, sendMessageAttempt, h]
  · intro h
    simp [notifyTab, sendMessageAttempt, h]
  all_goals
    cases fetch with
    | failure e =>
      simp only [handleSummarizePage_failure, handleQueryGemini_failure]
    | success res =>
      cases hok : resOk res with
      | false =>
        simp only [handleSummarizePage_non2xx env m0 tabId c hok,
          handleSummarizePage_non2xx env2 m0 tabId c hok,
          handleQueryGemini_non2xx env m0 tabId c hok,
          handleQueryGemini_non2xx env2 m0 tabId c hok]
      | true =>
        cases hj : res.jsonResult with
        | ok data =>
          simp only [handleSummarizePage_okJson env m0 tabId c hok hj,
            handleSummarizePage_okJson env2 m0 tabId c hok hj,
            handleQueryGemini_okJson env m0 tabId c hok hj,
            handleQueryGemini_okJson env2 m0 tabId c hok hj]
        | err e =>
          simp only [handleSummarizePage_badJson env m0 tabId c hok hj,
            handleSummarizePage_badJson env2 m0 tabId c hok hj,
            handleQueryGemini_badJson env m0 tabId c hok hj,
            handleQueryGemini_badJson env2 m0 tabId c hok hj]

/-- C9 witness: a notification towards a tab whose surface throws is
swallowed: nothing is delivered and no error escapes. -/
theorem notify_failures_swallowed_witness :
    notifyTab (fun _ => SendOutcome.thrown "Could not establish connection") (some 4)
      (startedMsg "query") = [] :=
  (notify_failures_swallowed (fun _ => SendOutcome.thrown "Could not establish connection")
      (fun _ => SendOutcome.delivered) regEmpty none 1
      (FetchOutcome.failure ⟨"TypeError", "x"⟩) 4 "Could not establish connection"
      (startedMsg "query")).2.1 rfl

/-- C10: for every query_gemini invocation whose network call returns a
2xx response with parseable JSON, the reply has ok true regardless of
the ok field inside the body, whereas a summarize_page invocation under
the same conditions replies with ok equal to the truthiness of the body
ok field. -/
theorem reply_ok_semantics (env : Nat → SendOutcome) (m0 : Registry)
    (tabId : Option Nat) (c : Nat) (res : FetchResponse) (data : ProxyData)
    (hok : resOk res = true) (hj : res.jsonResult = JsResult.ok data) :
    (handleQueryGemini env m0 tabId c (FetchOutcome.success res)).resp.ok = true
    ∧ (handleSummarizePage env m0 tabId c (FetchOutcome.success res)).resp.ok
        = data.okField.getD false := by
  rw [handleQueryGemini_okJson env m0 tabId c hok hj,
    handleSummarizePage_okJson env m0 tabId c hok hj]
  exact ⟨rfl, rfl⟩

/-- C10 witness: a 2xx body whose ok field is false yields ok true from
query_gemini but ok false from summarize_page. -/
theorem reply_ok_semantics_witness :
    (handleQueryGemini (fun _ => SendOutcome.delivered) regEmpty (some 7) 1
        (FetchOutcome.success okFalseRes)).resp.ok = true
    ∧ (handleSummarizePage (fun _ => SendOutcome.delivered) regEmpty (some 7) 1
        (FetchOutcome.success okFalseRes)).resp.ok = false := by
  have h := reply_ok_semantics (fun _ => SendOutcome.delivered) regEmpty (some 7) 1
    okFalseRes { okField := some false, textField := none } (by decide) rfl
  exact ⟨h.1, h.2⟩

end Browzie
